import Mathlib

/-!
Shallow embedding of the dcrlnhub RPC client and state-aggregation pipeline
(src/config.go: `loadConfig`, `newLightningHub`, `fetchHomePage`, `HomePage`),
together with theorems settling the specification claims about it.

Modelling conventions:
  * Go `string` is Lean `String`; Go `int64` is `Int` with an explicit
    two's-complement wrap (`wrap64`) wherever the source performs 64-bit
    arithmetic; Go `uint32` is `Nat` (the value is only copied, never
    computed with).
  * The three lnrpc queries (`GetInfo`, `ListChannels`, `WalletBalance`) are
    modelled as the fixed results a mock node hands back, each either a
    response or a transport error string, exactly the interface
    `fetchHomePage` consumes.
  * A Go `panic` (the unchecked `nodeInfo.Chains[0]` index) is a distinct
    outcome (`FetchResult.panicked`), separate from an error return.
  * Log output relevant to the claims (the two `log.Warn` calls inside
    `fetchHomePage`) is returned alongside the result.
-/

deriving instance DecidableEq for Except

/-- One entry of the GetInfo response's chain list (lnrpc.Chain): the network
the node believes it is on. -/
structure Chain where
  Network : String
  deriving DecidableEq

/-- The GetInfo response fields `fetchHomePage` reads (lnrpc.GetInfoResponse). -/
structure GetInfoResponse where
  Chains : List Chain
  Uris : List String
  NumActiveChannels : Nat
  deriving DecidableEq

/-- One payment channel; `fetchHomePage` reads only its capacity in atoms
(lnrpc.Channel, field Capacity of Go type int64). -/
structure Channel where
  Capacity : Int
  deriving DecidableEq

/-- The ListChannels response (lnrpc.ListChannelsResponse). -/
structure ListChannelsResponse where
  Channels : List Channel
  deriving DecidableEq

/-- The WalletBalance response field `fetchHomePage` reads
(lnrpc.WalletBalanceResponse, Go type int64). -/
structure WalletBalanceResponse where
  ConfirmedBalance : Int
  deriving DecidableEq

/-- A mock of the lnrpc.LightningClient query surface `fetchHomePage` uses:
the result each of the three read queries returns on this run, either a
response or a transport error (the Go `error` rendered as its message). -/
structure LightningClient where
  GetInfo : Except String GetInfoResponse
  ListChannels : Except String ListChannelsResponse
  WalletBalance : Except String WalletBalanceResponse
  deriving DecidableEq

/-- The configuration fields consumed by the modelled code paths
(src/config.go, struct config): the active network label and the two
dcrlnd credential paths `loadConfig` rewrites. -/
structure config where
  Network : String
  TLSCertPath : String
  MacaroonPath : String
  deriving DecidableEq

/-- The view model `fetchHomePage` assembles (src/config.go, struct
templateContext); Balance is the dcrutil.Amount (an int64) built from the
confirmed balance. -/
structure templateContext where
  NodeAddr : String
  Network : String
  ChannelsCount : Nat
  Capacity : Int
  Balance : Int
  ActiveChannels : List Channel
  deriving DecidableEq

/-- The error returns of `fetchHomePage`, one constructor per distinct
`fmt.Errorf` site: a failed remote call (message "rpc CALL() failed: CAUSE")
or the network mismatch (message carrying both labels). -/
inductive HubError where
  | rpcError (call : String) (cause : String)
  | networkMismatch (reported expected : String)
  deriving DecidableEq

/-- The Go error message each `HubError` renders to, as the `fmt.Errorf`
format strings in src/config.go produce it. -/
def errString : HubError → String
  | .rpcError call cause => "rpc " ++ call ++ "() failed: " ++ cause
  | .networkMismatch reported expected =>
      "dcrlnd and dcrlnhub are set in different networks <dcrlnd: "
        ++ reported ++ " / dcrlnhub: " ++ expected ++ ">"

/-- The outcome of one `fetchHomePage` run: a snapshot, an error return, or a
Go runtime panic (the unchecked `nodeInfo.Chains[0]` index). -/
inductive FetchResult where
  | ok (ctx : templateContext)
  | err (e : HubError)
  | panicked (msg : String)
  deriving DecidableEq

/-- Severity of a log line; only the levels the modelled code emits. -/
inductive LogLevel where
  | warn
  | error
  deriving DecidableEq

/-- One log line emitted by the modelled code. -/
structure LogEntry where
  level : LogLevel
  msg : String
  deriving DecidableEq

/-- Two's-complement wrap of an integer into the int64 range, the effect of
Go's 64-bit signed addition on a mathematical sum. -/
def wrap64 (x : Int) : Int :=
  (x + 2 ^ 63) % 2 ^ 64 - 2 ^ 63

/-- Go int64 addition: mathematical addition followed by the 64-bit wrap. -/
def addInt64 (a b : Int) : Int :=
  wrap64 (a + b)

/-- The capacity accumulation loop of `fetchHomePage` (src/config.go lines
447-450): `var totalCapacity int64; for _, channel := range ... {
totalCapacity += channel.Capacity }`. -/
def sumCapacities (channels : List Channel) : Int :=
  channels.foldl (fun acc channel => addInt64 acc channel.Capacity) 0

/-- The exact mathematical sum of the capacities, as the specification words
it ("aggregate capacity == Σ c.capacity for c in C"); kept separate from
`sumCapacities` so the two can be compared. -/
def exactCapacitySum (channels : List Channel) : Int :=
  (channels.map fun channel => channel.Capacity).sum

/-- The warning `fetchHomePage` logs when the node advertises no URI
(src/config.go line 434). -/
def uriWarnMsg : String :=
  "nodeInfo did not include a URI. external_ip config of dcrlnd is probably not set"

/-- The aggregation function `fetchHomePage` (src/config.go lines 410-467):
query GetInfo, check the node's first chain entry against the configured
network, take the first advertised URI (warning when there is none), query
ListChannels and accumulate capacity, query WalletBalance, and assemble the
template context. Returns the outcome together with the log lines emitted. -/
def fetchHomePage (lnd : LightningClient) (cfg : config) :
    FetchResult × List LogEntry :=
  match lnd.GetInfo with
  | .error e => (.err (.rpcError "GetInfo" e), [])
  | .ok nodeInfo =>
    match nodeInfo.Chains with
    | [] => (.panicked "runtime error: index out of range [0] with length 0", [])
    | chain0 :: _ =>
      let activeNetwork := chain0.Network
      if activeNetwork ≠ cfg.Network then
        (.err (.networkMismatch activeNetwork cfg.Network), [])
      else
        let nodeAddr := match nodeInfo.Uris with
          | [] => ""
          | uri :: _ => uri
        let uriLogs : List LogEntry := match nodeInfo.Uris with
          | [] => [⟨.warn, uriWarnMsg⟩]
          | _ :: _ => []
        match lnd.ListChannels with
        | .error e => (.err (.rpcError "ListChannels" e), uriLogs)
        | .ok listChanRes =>
          let totalCapacity := sumCapacities listChanRes.Channels
          match lnd.WalletBalance with
          | .error e => (.err (.rpcError "WalletBalance" e), uriLogs)
          | .ok walletBalanceRes =>
            (.ok { NodeAddr := nodeAddr
                 , Network := activeNetwork
                 , ChannelsCount := nodeInfo.NumActiveChannels
                 , Capacity := totalCapacity
                 , Balance := walletBalanceRes.ConfirmedBalance
                 , ActiveChannels := listChanRes.Channels },
             uriLogs ++ [⟨.warn, toString nodeInfo.NumActiveChannels⟩])

/-- Whether an Except value is a success. -/
def exceptOk {ε α : Type} : Except ε α → Bool
  | .ok _ => true
  | .error _ => false

/-- Whether the run produced a snapshot. -/
def FetchResult.isSnapshot : FetchResult → Bool
  | .ok _ => true
  | _ => false

/-- Whether the run returned an error value (a panic is not an error return). -/
def FetchResult.isError : FetchResult → Bool
  | .err _ => true
  | _ => false

/-- Whether the run returned the network-mismatch error. -/
def FetchResult.isNetworkMismatchErr : FetchResult → Bool
  | .err (.networkMismatch _ _) => true
  | _ => false

/-- Whether the run returned a failed-remote-call error. -/
def FetchResult.isRPCErr : FetchResult → Bool
  | .err (.rpcError _ _) => true
  | _ => false

/-- The snapshot's node address, or "" when the run produced no snapshot. -/
def snapshotNodeAddr : FetchResult → String
  | .ok ctx => ctx.NodeAddr
  | _ => ""

/-- Whether GetInfo succeeded with an empty chain list (the input on which
the unchecked `Chains[0]` index is reached). -/
def getInfoChainsEmpty (lnd : LightningClient) : Bool :=
  match lnd.GetInfo with
  | .ok nodeInfo => nodeInfo.Chains.isEmpty
  | .error _ => false

/-- Whether GetInfo succeeded, its chain list is non-empty, and the first
entry's network equals the configured one: the condition under which
`fetchHomePage` passes its network-consistency check. -/
def networkMatches (lnd : LightningClient) (cfg : config) : Bool :=
  match lnd.GetInfo with
  | .ok nodeInfo =>
    match nodeInfo.Chains with
    | chain0 :: _ => chain0.Network == cfg.Network
    | [] => false
  | .error _ => false

/-- First-occurrence substring replacement on character lists, the semantics
of Go's `strings.Replace(s, old, new, 1)`: at the first position where `old`
is a prefix of the remaining input, `old` is replaced by `new` and the rest
is kept verbatim; when `old` never occurs the input is unchanged. -/
def replaceFirst (s old new : List Char) : List Char :=
  if old.isPrefixOf s then new ++ s.drop old.length
  else
    match s with
    | [] => []
    | c :: rest => c :: replaceFirst rest old new

/-- Go `strings.Replace(s, old, new, 1)` on strings. -/
def goReplace1 (s old new : String) : String :=
  ⟨replaceFirst s.data old.data new.data⟩

/-- Models dcrutil.AppDataDir(appName, false) for a POSIX home directory:
the hidden per-application directory under the given home. -/
def appDataDir (homeDir appName : String) : String :=
  homeDir ++ "/." ++ appName

/-- Default dcrlnd TLS certificate path (src/config.go lines 33-35). -/
def defaultDcrlndTLSCertPath (homeDir : String) : String :=
  appDataDir homeDir "dcrlnd" ++ "/tls.cert"

/-- Default dcrlnd macaroon path (src/config.go lines 36-40). -/
def defaultDcrlndMacaroonPath (homeDir : String) : String :=
  appDataDir homeDir "dcrlnd" ++ "/data/chain/decred/testnet/admin.macaroon"

/-- Default dcrlnhub log path (src/config.go lines 28-31). -/
def defaultLogPath (homeDir : String) : String :=
  appDataDir homeDir "dcrlnhub" ++ "/logs/decred/testnet/dcrlnhub.log"

/-- The network-selection and path-rewriting core of `loadConfig`
(src/config.go lines 117-149 and 172): count the network flags in the order
mainnet, testnet, simnet (each setting cfg.Network), refuse more than one,
then rewrite the first "testnet" occurrence of the TLS-certificate, macaroon
and log paths to the selected network. Command-line and config-file parsing,
directory creation and log-rotation setup are environment effects outside
this model; the paths to rewrite are passed in. Returns the resulting config
together with the rewritten log path. -/
def loadConfig (MainNet TestNet SimNet : Bool)
    (tlsCertPath macaroonPath logPath : String) :
    Except String (config × String) :=
  let s0 : Nat × String := (0, "")
  let s1 := if MainNet then (s0.1 + 1, "mainnet") else s0
  let s2 := if TestNet then (s1.1 + 1, "testnet") else s1
  let s3 := if SimNet then (s2.1 + 1, "simnet") else s2
  let numNets := s3.1
  let network := s3.2
  if numNets > 1 then
    .error "mainnet, testnet and simnet params can't be used together -- choose one of the three"
  else
    .ok ({ Network := network
         , TLSCertPath := goReplace1 tlsCertPath "testnet" network
         , MacaroonPath := goReplace1 macaroonPath "testnet" network },
         goReplace1 logPath "testnet" network)

/-- The hub value `newLightningHub` constructs (src/config.go, struct
lightningHub); the template is modelled by whether its lookup of
"index.html" succeeds. -/
structure lightningHub where
  lnd : LightningClient
  template : Bool
  cfg : config
  context : templateContext
  deriving DecidableEq

/-- The outcome of `newLightningHub`: a hub, an error return, or a panic
propagated from the initial fetch. -/
inductive HubInitResult where
  | ok (hub : lightningHub)
  | err (msg : String)
  | panicked (msg : String)
  deriving DecidableEq

/-- The environment-dependent steps of `newLightningHub` before the initial
fetch, each modelled by the result it yields on this run: loading the TLS
credentials from the certificate file (credentials.NewClientTLSFromFile),
reading the macaroon file (ioutil.ReadFile), deserializing it
(mac.UnmarshalBinary, as a function of the bytes read), and dialing the gRPC
connection (grpc.Dial). -/
structure DialDeps where
  NewClientTLSFromFile : Except String Unit
  ReadFile : Except String (List Nat)
  UnmarshalBinary : List Nat → Except String Unit
  Dial : Except String Unit

/-- Whether the macaroon file was read and deserialized successfully. -/
def macaroonLoaded (deps : DialDeps) : Bool :=
  match deps.ReadFile with
  | .ok macBytes => exceptOk (deps.UnmarshalBinary macBytes)
  | .error _ => false

/-- The constructor `newLightningHub` (src/config.go lines 356-406): load the
TLS credentials, read and deserialize the macaroon, dial dcrlnd, then run one
initial `fetchHomePage` and keep its context; every step short-circuits with
an error, and the hub is returned only after the initial fetch succeeds. -/
def newLightningHub (deps : DialDeps) (lnd : LightningClient)
    (template : Bool) (cfg : config) : HubInitResult :=
  match deps.NewClientTLSFromFile with
  | .error e => .err ("unable to read cert file: " ++ e)
  | .ok _ =>
    match deps.ReadFile with
    | .error e => .err e
    | .ok macBytes =>
      match deps.UnmarshalBinary macBytes with
      | .error e => .err e
      | .ok _ =>
        match deps.Dial with
        | .error e => .err ("unable to dial to dcrlnd's gRPC server: " ++ e)
        | .ok _ =>
          match fetchHomePage lnd cfg with
          | (.ok homeCtx, _) => .ok ⟨lnd, template, cfg, homeCtx⟩
          | (.err e, _) => .err ("unable to get initial info: " ++ errString e)
          | (.panicked m, _) => .panicked m

/-- An HTTP response of the modelled page-serving paths. -/
inductive HttpResponse where
  | rendered (ctx : templateContext)
  | internalError (msg : String)
  | methodNotAllowed
  | routerMethodNotAllowed
  | panicked (msg : String)
  deriving DecidableEq

/-- The handler `HomePage` (src/config.go lines 472-504) on a request with
the given method: look up the template, fetch the home state, and only then
switch on the method (GET renders, anything else is 405). The second
component records whether `fetchHomePage` was invoked on this request. -/
def HomePage (h : lightningHub) (method : String) : HttpResponse × Bool :=
  if h.template = false then
    (.internalError "500 Internal Server Error.", false)
  else
    match fetchHomePage h.lnd h.cfg with
    | (.err _, _) => (.internalError "unable to render home page", true)
    | (.panicked m, _) => (.panicked m, true)
    | (.ok homeInfo, _) =>
      if method = "GET" then (.rendered homeInfo, true)
      else (.methodNotAllowed, true)

/-- The route registration `r.HandleFunc("/", hub.HomePage).Methods("POST",
"GET")` (src/config.go lines 235-236): requests whose method is GET or POST
reach `HomePage`; the router answers any other method itself, without
invoking the handler. The second component records whether `fetchHomePage`
was invoked. -/
def routeHomePage (h : lightningHub) (method : String) : HttpResponse × Bool :=
  if method = "POST" ∨ method = "GET" then HomePage h method
  else (.routerMethodNotAllowed, false)

/-! ## Concrete fixtures used by witnesses and counterexamples -/

/-- A chain entry reporting the test network. -/
def testnetChain : Chain := ⟨"testnet"⟩

/-- A healthy GetInfo response on testnet with one advertised URI. -/
def okInfo : GetInfoResponse := ⟨[testnetChain], ["03abc@127.0.0.1:9735"], 3⟩

/-- Two channels with the capacities of the specification's scenario. -/
def okChannels : List Channel := [⟨500000⟩, ⟨1500000⟩]

/-- A node whose three queries all succeed. -/
def okClient : LightningClient := ⟨.ok okInfo, .ok ⟨okChannels⟩, .ok ⟨750000⟩⟩

/-- A configuration expecting testnet, with the default credential paths. -/
def testnetCfg : config :=
  ⟨"testnet", "/home/user/.dcrlnd/tls.cert",
   "/home/user/.dcrlnd/data/chain/decred/testnet/admin.macaroon"⟩

/-- The snapshot `fetchHomePage okClient testnetCfg` assembles. -/
def okCtx : templateContext :=
  ⟨"03abc@127.0.0.1:9735", "testnet", 3, 2000000, 750000, okChannels⟩

/-- The hub built over `okClient`. -/
def okHub : lightningHub := ⟨okClient, true, testnetCfg, okCtx⟩

/-- Dial dependencies that all succeed. -/
def okDeps : DialDeps := ⟨.ok (), .ok [2, 0, 9], fun _ => .ok (), .ok ()⟩

/-- A node whose GetInfo query fails with a transport error. -/
def errGetInfoClient : LightningClient :=
  ⟨.error "connection refused", .ok ⟨okChannels⟩, .ok ⟨750000⟩⟩

/-- A node whose GetInfo succeeds but reports zero chain entries. -/
def emptyChainsClient : LightningClient :=
  ⟨.ok ⟨[], ["03abc@127.0.0.1:9735"], 1⟩, .ok ⟨okChannels⟩, .ok ⟨750000⟩⟩

/-- A node on testnet that advertises no external URI. -/
def noUriClient : LightningClient :=
  ⟨.ok ⟨[testnetChain], [], 2⟩, .ok ⟨okChannels⟩, .ok ⟨750000⟩⟩

/-- Two channels of 2^62 atoms each: every capacity is a valid int64 but the
sum exceeds the int64 range. -/
def overflowChannels : List Channel :=
  [⟨4611686018427387904⟩, ⟨4611686018427387904⟩]

/-- A node whose channel list makes the int64 capacity accumulator wrap. -/
def overflowClient : LightningClient :=
  ⟨.ok okInfo, .ok ⟨overflowChannels⟩, .ok ⟨750000⟩⟩

/-- The maximum int64 capacity followed by one more atom: a second channel
list on which the accumulator wraps. -/
def maxPlusOneChannels : List Channel := [⟨9223372036854775807⟩, ⟨1⟩]

/-- A node whose GetInfo reports 5 active channels while ListChannels
returns only the 2 channels of `okChannels`. -/
def countMismatchClient : LightningClient :=
  ⟨.ok ⟨[testnetChain], ["03abc@127.0.0.1:9735"], 5⟩, .ok ⟨okChannels⟩, .ok ⟨750000⟩⟩

/-! ## Claim theorems -/

/-- C1: on any run in which one of the three queries returns an error (and
the crash input of C3 is not hit: when GetInfo itself fails that flag is
false by definition), `fetchHomePage` returns an error value and no
snapshot. -/
theorem fetchHomePage_query_error_no_snapshot (lnd : LightningClient) (cfg : config)
    (h : exceptOk lnd.GetInfo = false ∨ exceptOk lnd.ListChannels = false ∨
      exceptOk lnd.WalletBalance = false)
    (hchains : getInfoChainsEmpty lnd = false) :
    (fetchHomePage lnd cfg).1.isError = true ∧
    (fetchHomePage lnd cfg).1.isSnapshot = false := by
  rcases hg : lnd.GetInfo with e | info
  · simp [fetchHomePage, hg, FetchResult.isError, FetchResult.isSnapshot]
  · rcases hc : info.Chains with _ | ⟨c, cs⟩
    · simp [getInfoChainsEmpty, hg, hc] at hchains
    · by_cases hn : c.Network = cfg.Network
      · rcases h with h | h | h
        · simp [exceptOk, hg] at h
        · rcases hl : lnd.ListChannels with e | chanRes
          · simp [fetchHomePage, hg, hc, hn, hl,
              FetchResult.isError, FetchResult.isSnapshot]
          · simp [exceptOk, hl] at h
        · rcases hw : lnd.WalletBalance with e | balRes
          · rcases hl : lnd.ListChannels with e2 | chanRes
            · simp [fetchHomePage, hg, hc, hn, hl,
                FetchResult.isError, FetchResult.isSnapshot]
            · simp [fetchHomePage, hg, hc, hn, hl, hw,
                FetchResult.isError, FetchResult.isSnapshot]
          · simp [exceptOk, hw] at h
      · simp [fetchHomePage, hg, hc, hn,
          FetchResult.isError, FetchResult.isSnapshot]

/-- C1 witness: a failing GetInfo query on the testnet configuration yields
an error return and no snapshot. -/
theorem fetchHomePage_query_error_no_snapshot_witness :
    (fetchHomePage errGetInfoClient testnetCfg).1.isError = true ∧
    (fetchHomePage errGetInfoClient testnetCfg).1.isSnapshot = false :=
  fetchHomePage_query_error_no_snapshot errGetInfoClient testnetCfg (Or.inl rfl) rfl

/-- C2: when GetInfo succeeds with a non-empty chain list, `fetchHomePage`
returns the network-mismatch error, carrying exactly the reported and the
expected label, if and only if the two labels differ under exact string
comparison; and a mismatch return is never also a failed-remote-call return,
so the two kinds are distinguishable. -/
theorem fetchHomePage_network_mismatch_iff (lnd : LightningClient) (cfg : config)
    (info : GetInfoResponse) (c : Chain) (cs : List Chain)
    (hg : lnd.GetInfo = .ok info) (hc : info.Chains = c :: cs) :
    (((fetchHomePage lnd cfg).1 =
        .err (.networkMismatch c.Network cfg.Network)) ↔ c.Network ≠ cfg.Network) ∧
    (fetchHomePage lnd cfg).1.isNetworkMismatchErr = (c.Network != cfg.Network) ∧
    ((fetchHomePage lnd cfg).1.isNetworkMismatchErr &&
      (fetchHomePage lnd cfg).1.isRPCErr) = false := by
  by_cases hn : c.Network = cfg.Network
  · rcases hl : lnd.ListChannels with e | chanRes
    · simp [fetchHomePage, hg, hc, hn, hl, FetchResult.isNetworkMismatchErr,
        FetchResult.isRPCErr]
    · rcases hw : lnd.WalletBalance with e | balRes
      · simp [fetchHomePage, hg, hc, hn, hl, hw, FetchResult.isNetworkMismatchErr,
          FetchResult.isRPCErr]
      · simp [fetchHomePage, hg, hc, hn, hl, hw, FetchResult.isNetworkMismatchErr,
          FetchResult.isRPCErr]
  · simp [fetchHomePage, hg, hc, hn, FetchResult.isNetworkMismatchErr,
      FetchResult.isRPCErr, bne_iff_ne]

/-- C2 witness: a node reporting mainnet against the testnet configuration
is exactly the mismatch case, with both labels carried in the error. -/
theorem fetchHomePage_network_mismatch_iff_witness :
    (((fetchHomePage (⟨.ok ⟨[⟨"mainnet"⟩], [], 0⟩, .ok ⟨[]⟩, .ok ⟨0⟩⟩ :
        LightningClient) testnetCfg).1 =
      .err (.networkMismatch (Chain.mk "mainnet").Network testnetCfg.Network)) ↔
      (Chain.mk "mainnet").Network ≠ testnetCfg.Network) ∧
    (fetchHomePage (⟨.ok ⟨[⟨"mainnet"⟩], [], 0⟩, .ok ⟨[]⟩, .ok ⟨0⟩⟩ :
        LightningClient) testnetCfg).1.isNetworkMismatchErr =
      ((Chain.mk "mainnet").Network != testnetCfg.Network) ∧
    ((fetchHomePage (⟨.ok ⟨[⟨"mainnet"⟩], [], 0⟩, .ok ⟨[]⟩, .ok ⟨0⟩⟩ :
        LightningClient) testnetCfg).1.isNetworkMismatchErr &&
      (fetchHomePage (⟨.ok ⟨[⟨"mainnet"⟩], [], 0⟩, .ok ⟨[]⟩, .ok ⟨0⟩⟩ :
        LightningClient) testnetCfg).1.isRPCErr) = false :=
  fetchHomePage_network_mismatch_iff _ testnetCfg ⟨[⟨"mainnet"⟩], [], 0⟩
    ⟨"mainnet"⟩ [] rfl rfl

/-- C3: a GetInfo response with zero chain entries makes `fetchHomePage`
crash on the unchecked `nodeInfo.Chains[0]` index: the run panics instead of
returning the malformed-response RPC error the specification requires. -/
theorem fetchHomePage_empty_chains_panics :
    (fetchHomePage emptyChainsClient testnetCfg).1 =
      .panicked "runtime error: index out of range [0] with length 0" ∧
    (fetchHomePage emptyChainsClient testnetCfg).1.isError = false ∧
    (fetchHomePage emptyChainsClient testnetCfg).1.isRPCErr = false := by
  decide

/-- Wrapping the left summand first does not change a wrapped sum. -/
theorem wrap64_add_left (a b : Int) : wrap64 (wrap64 a + b) = wrap64 (a + b) := by
  unfold wrap64
  omega

/-- An integer already inside the int64 range is unchanged by the wrap. -/
theorem wrap64_eq_self {x : Int} (h1 : -(2 ^ 63) ≤ x) (h2 : x < 2 ^ 63) :
    wrap64 x = x := by
  unfold wrap64
  omega

/-- The int64 accumulation loop computes the two's-complement wrap of the
exact capacity sum. -/
theorem sumCapacities_eq_wrap (channels : List Channel) :
    sumCapacities channels = wrap64 (exactCapacitySum channels) := by
  have aux : ∀ (cs : List Channel) (acc : Int),
      cs.foldl (fun a channel => addInt64 a channel.Capacity) (wrap64 acc) =
        wrap64 (acc + exactCapacitySum cs) := by
    intro cs
    induction cs with
    | nil => intro acc; simp [exactCapacitySum]
    | cons c cs ih =>
      intro acc
      have step : addInt64 (wrap64 acc) c.Capacity = wrap64 (acc + c.Capacity) :=
        wrap64_add_left acc c.Capacity
      calc (c :: cs).foldl (fun a channel => addInt64 a channel.Capacity) (wrap64 acc)
          = cs.foldl (fun a channel => addInt64 a channel.Capacity)
              (wrap64 (acc + c.Capacity)) := by
            simp [List.foldl, step]
        _ = wrap64 ((acc + c.Capacity) + exactCapacitySum cs) := ih (acc + c.Capacity)
        _ = wrap64 (acc + exactCapacitySum (c :: cs)) := by
            simp [exactCapacitySum]
            ring_nf
  have h0 : wrap64 0 = 0 := by decide
  calc sumCapacities channels
      = channels.foldl (fun a channel => addInt64 a channel.Capacity) (wrap64 0) := by
        rw [h0]; rfl
    _ = wrap64 (0 + exactCapacitySum channels) := aux channels 0
    _ = wrap64 (exactCapacitySum channels) := by rw [Int.zero_add]

/-- Inversion of a successful run: a snapshot forces every query to have
succeeded, a non-empty chain list whose head matches the configured network,
and pins every snapshot field to the responses. -/
theorem fetchHomePage_ok_inv (lnd : LightningClient) (cfg : config)
    (ctx : templateContext) (h : (fetchHomePage lnd cfg).1 = .ok ctx) :
    ∃ info c cs chanRes balRes,
      lnd.GetInfo = .ok info ∧ info.Chains = c :: cs ∧
      c.Network = cfg.Network ∧ lnd.ListChannels = .ok chanRes ∧
      lnd.WalletBalance = .ok balRes ∧
      ctx = { NodeAddr := info.Uris.headD ""
            , Network := c.Network
            , ChannelsCount := info.NumActiveChannels
            , Capacity := sumCapacities chanRes.Channels
            , Balance := balRes.ConfirmedBalance
            , ActiveChannels := chanRes.Channels } := by
  rcases hg : lnd.GetInfo with e | info
  · simp [fetchHomePage, hg] at h
  · rcases hc : info.Chains with _ | ⟨c, cs⟩
    · simp [fetchHomePage, hg, hc] at h
    · by_cases hn : c.Network = cfg.Network
      · rcases hl : lnd.ListChannels with e | chanRes
        · simp [fetchHomePage, hg, hc, hn, hl] at h
        · rcases hw : lnd.WalletBalance with e | balRes
          · simp [fetchHomePage, hg, hc, hn, hl, hw] at h
          · refine ⟨info, c, cs, chanRes, balRes, rfl, hc, hn, rfl, rfl, ?_⟩
            rcases hu : info.Uris with _ | ⟨uri, uris⟩
            · simp [fetchHomePage, hg, hc, hn, hl, hw, hu] at h
              simp [hu, ← h, hn]
            · simp [fetchHomePage, hg, hc, hn, hl, hw, hu] at h
              simp [hu, ← h, hn]
      · simp [fetchHomePage, hg, hc, hn] at h

/-- C4 counterexample: two valid int64 capacities of 2^62 atoms each make
the snapshot's aggregate capacity wrap to -2^63, which is not the sum of the
capacity fields of the channels in the list. -/
theorem fetchHomePage_capacity_not_sum :
    (fetchHomePage overflowClient testnetCfg).1 =
      .ok ⟨"03abc@127.0.0.1:9735", "testnet", 3,
        -9223372036854775808, 750000, overflowChannels⟩ ∧
    exactCapacitySum overflowChannels = 9223372036854775808 ∧
    (-9223372036854775808 : Int) ≠ 9223372036854775808 := by
  decide

/-- C4 amended: in every snapshot, ActiveChannels is the channel list in the
order the node returned it, and the aggregate capacity equals the exact sum
of the capacity fields whenever that sum lies in the int64 range (the empty
list yields 0); outside that range the int64 accumulator wraps. -/
theorem fetchHomePage_capacity_sum (lnd : LightningClient) (cfg : config)
    (chanRes : ListChannelsResponse) (ctx : templateContext)
    (hl : lnd.ListChannels = .ok chanRes)
    (hok : (fetchHomePage lnd cfg).1 = .ok ctx)
    (hlow : -(2 ^ 63) ≤ exactCapacitySum chanRes.Channels)
    (hhigh : exactCapacitySum chanRes.Channels < 2 ^ 63) :
    ctx.ActiveChannels = chanRes.Channels ∧
    ctx.Capacity = exactCapacitySum chanRes.Channels ∧
    sumCapacities [] = 0 := by
  obtain ⟨info, c, cs, chanRes', balRes, hg, hc, hn, hl', hw, hctx⟩ :=
    fetchHomePage_ok_inv lnd cfg ctx hok
  have hsame : chanRes' = chanRes := by
    rw [hl] at hl'
    exact (Except.ok.inj hl').symm
  rw [hsame] at hctx
  subst hctx
  refine ⟨rfl, ?_, rfl⟩
  calc sumCapacities chanRes.Channels
      = wrap64 (exactCapacitySum chanRes.Channels) :=
        sumCapacities_eq_wrap chanRes.Channels
    _ = exactCapacitySum chanRes.Channels := wrap64_eq_self hlow hhigh

/-- C4 witness: the scenario channels of 500000 and 1500000 atoms yield a
snapshot listing them in order with aggregate capacity their exact sum. -/
theorem fetchHomePage_capacity_sum_witness :
    okCtx.ActiveChannels = (ListChannelsResponse.mk okChannels).Channels ∧
    okCtx.Capacity = exactCapacitySum (ListChannelsResponse.mk okChannels).Channels ∧
    sumCapacities [] = 0 :=
  fetchHomePage_capacity_sum okClient testnetCfg ⟨okChannels⟩ okCtx rfl
    (by decide) (by decide) (by decide)

/-- Upper bound on the currency's total atom supply: 21 million coins of
10^8 atoms each. -/
def maxAtoms : Int := 21000000 * 100000000

/-- C6 counterexample: a list of two valid int64 capacities (the int64
maximum and 1) whose accumulated total wraps silently to -2^63 instead of
the exact mathematical sum 2^63. -/
theorem sumCapacities_wraps_silently :
    sumCapacities maxPlusOneChannels ≠ exactCapacitySum maxPlusOneChannels ∧
    sumCapacities maxPlusOneChannels = -9223372036854775808 ∧
    exactCapacitySum maxPlusOneChannels = 9223372036854775808 := by
  decide

/-- C6 amended: the accumulator is a 64-bit signed integer, which is wide
enough for the currency's maximum supply: for every channel list of
nonnegative capacities whose exact sum is at most the maximum atom supply,
the accumulated aggregate equals the exact mathematical sum with no wrap;
lists whose exact sum leaves the int64 range wrap silently instead. -/
theorem sumCapacities_exact_within_supply (channels : List Channel)
    (hpos : ∀ c ∈ channels, 0 ≤ c.Capacity)
    (hsup : exactCapacitySum channels ≤ maxAtoms) :
    sumCapacities channels = exactCapacitySum channels := by
  have h0 : 0 ≤ exactCapacitySum channels := by
    unfold exactCapacitySum
    apply List.sum_nonneg
    intro x hx
    obtain ⟨c, hc, hcx⟩ := List.mem_map.mp hx
    exact hcx ▸ hpos c hc
  have hmax : maxAtoms < 2 ^ 63 := by decide
  rw [sumCapacities_eq_wrap]
  exact wrap64_eq_self (by omega) (by omega)

/-- C6 witness: the scenario capacities 500000 and 1500000 are summed
exactly. -/
theorem sumCapacities_exact_within_supply_witness :
    sumCapacities okChannels = exactCapacitySum okChannels :=
  sumCapacities_exact_within_supply okChannels (by decide) (by decide)

/-- C5 counterexample: a POST request — whose method is not GET — reaches
the handler, which invokes the State Aggregator before rejecting it with
405 Method Not Allowed. -/
theorem routeHomePage_post_invokes_aggregator :
    (routeHomePage okHub "POST").2 = true ∧
    (routeHomePage okHub "POST").1 = .methodNotAllowed ∧
    "POST" ≠ "GET" := by
  decide

/-- C5 amended: a non-GET request is never rendered; a method other than
GET and POST is rejected by the router without invoking `fetchHomePage`,
while a POST reaching the handler invokes `fetchHomePage` (whenever the
template lookup succeeds) before being rejected. -/
theorem routeHomePage_non_get (h : lightningHub) (method : String)
    (hm : method ≠ "GET") :
    (∀ ctx, (routeHomePage h method).1 ≠ .rendered ctx) ∧
    (method ≠ "POST" → routeHomePage h method = (.routerMethodNotAllowed, false)) ∧
    ((routeHomePage h method).2 = true ↔ (method = "POST" ∧ h.template = true)) := by
  by_cases hp : method = "POST"
  · subst hp
    by_cases ht : h.template = true
    · rcases hf : fetchHomePage h.lnd h.cfg with ⟨r, logs⟩
      rcases r with ctx | e | m <;>
        simp [routeHomePage, HomePage, ht, hm, hf]
    · simp at ht
      simp [routeHomePage, HomePage, ht]
  · simp [routeHomePage, hp, hm]

/-- C5 witness: a DELETE request is rejected by the router without invoking
the aggregator and is never rendered. -/
theorem routeHomePage_non_get_witness :
    (∀ ctx, (routeHomePage okHub "DELETE").1 ≠ .rendered ctx) ∧
    ("DELETE" ≠ "POST" → routeHomePage okHub "DELETE" = (.routerMethodNotAllowed, false)) ∧
    ((routeHomePage okHub "DELETE").2 = true ↔ ("DELETE" = "POST" ∧ okHub.template = true)) :=
  routeHomePage_non_get okHub "DELETE" (by decide)

/-- C7: on a run past the network check whose channel and balance queries
succeed, an empty URI list is not a failure: the snapshot is produced with
the node address equal to the first URI or "" when there is none, every log
line emitted is warning-level, and the empty case records the URI warning. -/
theorem fetchHomePage_empty_uris_warn (lnd : LightningClient) (cfg : config)
    (info : GetInfoResponse) (c : Chain) (cs : List Chain)
    (chanRes : ListChannelsResponse) (balRes : WalletBalanceResponse)
    (hg : lnd.GetInfo = .ok info) (hc : info.Chains = c :: cs)
    (hn : c.Network = cfg.Network)
    (hl : lnd.ListChannels = .ok chanRes)
    (hw : lnd.WalletBalance = .ok balRes) :
    (fetchHomePage lnd cfg).1.isSnapshot = true ∧
    snapshotNodeAddr (fetchHomePage lnd cfg).1 = info.Uris.headD "" ∧
    ((fetchHomePage lnd cfg).2.all fun e => e.level == LogLevel.warn) = true ∧
    (info.Uris.isEmpty = true →
      (⟨.warn, uriWarnMsg⟩ : LogEntry) ∈ (fetchHomePage lnd cfg).2) := by
  rcases hu : info.Uris with _ | ⟨uri, uris⟩
  · simp [fetchHomePage, hg, hc, hn, hl, hw, hu, FetchResult.isSnapshot,
      snapshotNodeAddr]
  · simp [fetchHomePage, hg, hc, hn, hl, hw, hu, FetchResult.isSnapshot,
      snapshotNodeAddr]

/-- C7 witness: a node with no advertised URI still yields a snapshot, with
an empty node address and only warning-level logs, among them the URI
warning. -/
theorem fetchHomePage_empty_uris_warn_witness :
    (fetchHomePage noUriClient testnetCfg).1.isSnapshot = true ∧
    snapshotNodeAddr (fetchHomePage noUriClient testnetCfg).1 =
      (GetInfoResponse.mk [testnetChain] [] 2).Uris.headD "" ∧
    ((fetchHomePage noUriClient testnetCfg).2.all fun e => e.level == LogLevel.warn) = true ∧
    ((GetInfoResponse.mk [testnetChain] [] 2).Uris.isEmpty = true →
      (⟨.warn, uriWarnMsg⟩ : LogEntry) ∈ (fetchHomePage noUriClient testnetCfg).2) :=
  fetchHomePage_empty_uris_warn noUriClient testnetCfg ⟨[testnetChain], [], 2⟩
    testnetChain [] ⟨okChannels⟩ ⟨750000⟩ rfl rfl rfl rfl rfl

/-- C8: the snapshot's channel-count field is copied from the GetInfo
response's NumActiveChannels, not derived from the channel list; on a node
whose two responses disagree (GetInfo reports 5 while ListChannels returns
2 channels) the two snapshot fields differ. -/
theorem fetchHomePage_channels_count_from_info (lnd : LightningClient)
    (cfg : config) (info : GetInfoResponse) (ctx : templateContext)
    (hg : lnd.GetInfo = .ok info)
    (hok : (fetchHomePage lnd cfg).1 = .ok ctx) :
    ctx.ChannelsCount = info.NumActiveChannels ∧
    (fetchHomePage countMismatchClient testnetCfg).1 =
      .ok ⟨"03abc@127.0.0.1:9735", "testnet", 5, 2000000, 750000, okChannels⟩ ∧
    (templateContext.mk "03abc@127.0.0.1:9735" "testnet" 5 2000000 750000
        okChannels).ChannelsCount ≠
      (templateContext.mk "03abc@127.0.0.1:9735" "testnet" 5 2000000 750000
        okChannels).ActiveChannels.length := by
  obtain ⟨info', c, cs, chanRes, balRes, hg', hc, hn, hl, hw, hctx⟩ :=
    fetchHomePage_ok_inv lnd cfg ctx hok
  have hsame : info' = info := by
    rw [hg] at hg'
    exact (Except.ok.inj hg').symm
  subst hsame
  subst hctx
  exact ⟨rfl, by decide, by decide⟩

/-- C8 witness: on the disagreeing node itself, the snapshot's count is the
GetInfo value 5 while its channel list has length 2. -/
theorem fetchHomePage_channels_count_from_info_witness :
    (templateContext.mk "03abc@127.0.0.1:9735" "testnet" 5 2000000 750000
        okChannels).ChannelsCount =
      (GetInfoResponse.mk [testnetChain] ["03abc@127.0.0.1:9735"] 5).NumActiveChannels ∧
    (fetchHomePage countMismatchClient testnetCfg).1 =
      .ok ⟨"03abc@127.0.0.1:9735", "testnet", 5, 2000000, 750000, okChannels⟩ ∧
    (templateContext.mk "03abc@127.0.0.1:9735" "testnet" 5 2000000 750000
        okChannels).ChannelsCount ≠
      (templateContext.mk "03abc@127.0.0.1:9735" "testnet" 5 2000000 750000
        okChannels).ActiveChannels.length :=
  fetchHomePage_channels_count_from_info countMismatchClient testnetCfg
    ⟨[testnetChain], ["03abc@127.0.0.1:9735"], 5⟩
    ⟨"03abc@127.0.0.1:9735", "testnet", 5, 2000000, 750000, okChannels⟩ rfl rfl

/-- C9: with no network flag set, `loadConfig` succeeds with the empty
network label, rewriting the first "testnet" occurrence of the default
TLS-certificate path (which has none, so it is unchanged), the macaroon path
and the log path to the empty string (shown for the representative home
directory "/home/user"); consequently the network-consistency check of
`fetchHomePage` fails for every non-empty node-reported label. -/
theorem loadConfig_no_network_flags (cfg : config) (lnd : LightningClient)
    (info : GetInfoResponse) (c : Chain) (cs : List Chain)
    (hcfg : cfg.Network = "") (hg : lnd.GetInfo = .ok info)
    (hc : info.Chains = c :: cs) (hne : c.Network ≠ "") :
    loadConfig false false false (defaultDcrlndTLSCertPath "/home/user")
        (defaultDcrlndMacaroonPath "/home/user") (defaultLogPath "/home/user") =
      .ok ({ Network := ""
           , TLSCertPath := "/home/user/.dcrlnd/tls.cert"
           , MacaroonPath := "/home/user/.dcrlnd/data/chain/decred//admin.macaroon" },
           "/home/user/.dcrlnhub/logs/decred//dcrlnhub.log") ∧
    (fetchHomePage lnd cfg).1 = .err (.networkMismatch c.Network "") := by
  constructor
  · decide
  · have hdiff : c.Network ≠ cfg.Network := by
      rw [hcfg]
      exact hne
    simp [fetchHomePage, hg, hc, hdiff, hcfg]
    rw [if_neg hne]

/-- C9 witness: the unconfigured hub against a node reporting testnet hits
the mismatch error carrying the empty expected label. -/
theorem loadConfig_no_network_flags_witness :
    (loadConfig false false false (defaultDcrlndTLSCertPath "/home/user")
        (defaultDcrlndMacaroonPath "/home/user") (defaultLogPath "/home/user") =
      .ok ({ Network := ""
           , TLSCertPath := "/home/user/.dcrlnd/tls.cert"
           , MacaroonPath := "/home/user/.dcrlnd/data/chain/decred//admin.macaroon" },
           "/home/user/.dcrlnhub/logs/decred//dcrlnhub.log")) ∧
    (fetchHomePage okClient ⟨"", "/home/user/.dcrlnd/tls.cert",
        "/home/user/.dcrlnd/data/chain/decred//admin.macaroon"⟩).1 =
      .err (.networkMismatch testnetChain.Network "") :=
  loadConfig_no_network_flags
    ⟨"", "/home/user/.dcrlnd/tls.cert",
      "/home/user/.dcrlnd/data/chain/decred//admin.macaroon"⟩
    okClient okInfo testnetChain [] rfl rfl rfl (by decide)

/-- C10: a hub value is returned only when the TLS material loaded, the
macaroon was read and deserialized, the dial succeeded, and the one initial
`fetchHomePage` run produced a snapshot — all three queries succeeded and
the node's network matched the configured one — which becomes the hub's
context; and when the initial fetch fails the constructor returns an error
and no hub, as on the concrete failing node shown. -/
theorem newLightningHub_requires_initial_fetch (deps : DialDeps)
    (lnd : LightningClient) (template : Bool) (cfg : config)
    (hub : lightningHub)
    (h : newLightningHub deps lnd template cfg = .ok hub) :
    exceptOk deps.NewClientTLSFromFile = true ∧
    exceptOk deps.ReadFile = true ∧
    macaroonLoaded deps = true ∧
    exceptOk deps.Dial = true ∧
    (fetchHomePage lnd cfg).1 = .ok hub.context ∧
    exceptOk lnd.GetInfo = true ∧
    networkMatches lnd cfg = true ∧
    exceptOk lnd.ListChannels = true ∧
    exceptOk lnd.WalletBalance = true ∧
    newLightningHub okDeps errGetInfoClient true testnetCfg =
      .err "unable to get initial info: rpc GetInfo() failed: connection refused" := by
  rcases ht : deps.NewClientTLSFromFile with e | u
  · simp [newLightningHub, ht] at h
  · rcases hr : deps.ReadFile with e | macBytes
    · simp [newLightningHub, ht, hr] at h
    · rcases hu : deps.UnmarshalBinary macBytes with e | u2
      · simp [newLightningHub, ht, hr, hu] at h
      · rcases hd : deps.Dial with e | u3
        · simp [newLightningHub, ht, hr, hu, hd] at h
        · rcases hf : fetchHomePage lnd cfg with ⟨r, logs⟩
          rcases r with ctx | e | m
          · simp [newLightningHub, ht, hr, hu, hd, hf] at h
            have hfst : (fetchHomePage lnd cfg).1 = .ok ctx := by rw [hf]
            obtain ⟨info, c, cs, chanRes, balRes, hg, hc, hn, hl, hw, _⟩ :=
              fetchHomePage_ok_inv lnd cfg ctx hfst
            have hctx : hub.context = ctx := by rw [← h]
            refine ⟨by simp [exceptOk, ht], by simp [exceptOk, hr],
              by simp [macaroonLoaded, hr, hu, exceptOk],
              by simp [exceptOk, hd], by rw [hctx],
              by simp [exceptOk, hg], by simp [networkMatches, hg, hc, hn],
              by simp [exceptOk, hl], by simp [exceptOk, hw], by decide⟩
          · simp [newLightningHub, ht, hr, hu, hd, hf] at h
          · simp [newLightningHub, ht, hr, hu, hd, hf] at h

/-- C10 witness: on the healthy node with all dependencies succeeding, the
constructed hub carries the initial snapshot, and the failing node yields
the wrapped initial-fetch error. -/
theorem newLightningHub_requires_initial_fetch_witness :
    exceptOk okDeps.NewClientTLSFromFile = true ∧
    exceptOk okDeps.ReadFile = true ∧
    macaroonLoaded okDeps = true ∧
    exceptOk okDeps.Dial = true ∧
    (fetchHomePage okClient testnetCfg).1 = .ok okHub.context ∧
    exceptOk okClient.GetInfo = true ∧
    networkMatches okClient testnetCfg = true ∧
    exceptOk okClient.ListChannels = true ∧
    exceptOk okClient.WalletBalance = true ∧
    newLightningHub okDeps errGetInfoClient true testnetCfg =
      .err "unable to get initial info: rpc GetInfo() failed: connection refused" :=
  newLightningHub_requires_initial_fetch okDeps okClient true testnetCfg okHub rfl
